import Mathlib

/-
Shallow embedding of the `finalhandler` npm module (src/unnamed/part_000,
the message/stacktrace variant documented by the README; src/index.js is an
older env-based revision of the same file).  JS strings are Lean `String`s,
JS `undefined` string values are `Option String` with `none`, Buffers are a
`Body` carrying the utf8 content string and the `.type` tag, and the
request/response objects are records holding exactly the fields the module
reads and writes.
-/

namespace Finalhandler

/-- An upstream JS error value, read defensively by the module: optional
`status`, `message`, `stack`, `name` attributes plus its `String(err)`
rendering. -/
structure Err where
  status : Option Nat
  message : Option String
  stack : Option String
  name : Option String
  str : String

/-- Shape of a configured message-derivation function `(err, status) => msg`,
which may return `undefined` (`none`). -/
abbrev MsgFn := Err → Nat → Option String

/-- JS truthiness of a string-or-undefined value: `undefined` and `""` are
falsy. -/
def jsTruthy : Option String → Bool
  | some s => s != ""
  | none => false

/-- JS string coercion of a string-or-undefined value (as performed by
string concatenation and by escape-html's `'' + string`). -/
def jsStr : Option String → String
  | some s => s
  | none => "undefined"

/-- Node's `http.STATUS_CODES` table: standard reason phrase per status. -/
def STATUS_CODES : Nat → Option String
  | 100 => some "Continue"
  | 101 => some "Switching Protocols"
  | 102 => some "Processing"
  | 200 => some "OK"
  | 201 => some "Created"
  | 202 => some "Accepted"
  | 203 => some "Non-Authoritative Information"
  | 204 => some "No Content"
  | 205 => some "Reset Content"
  | 206 => some "Partial Content"
  | 207 => some "Multi-Status"
  | 208 => some "Already Reported"
  | 226 => some "IM Used"
  | 300 => some "Multiple Choices"
  | 301 => some "Moved Permanently"
  | 302 => some "Found"
  | 303 => some "See Other"
  | 304 => some "Not Modified"
  | 305 => some "Use Proxy"
  | 307 => some "Temporary Redirect"
  | 308 => some "Permanent Redirect"
  | 400 => some "Bad Request"
  | 401 => some "Unauthorized"
  | 402 => some "Payment Required"
  | 403 => some "Forbidden"
  | 404 => some "Not Found"
  | 405 => some "Method Not Allowed"
  | 406 => some "Not Acceptable"
  | 407 => some "Proxy Authentication Required"
  | 408 => some "Request Timeout"
  | 409 => some "Conflict"
  | 410 => some "Gone"
  | 411 => some "Length Required"
  | 412 => some "Precondition Failed"
  | 413 => some "Payload Too Large"
  | 414 => some "URI Too Long"
  | 415 => some "Unsupported Media Type"
  | 416 => some "Range Not Satisfiable"
  | 417 => some "Expectation Failed"
  | 418 => some "I\x27m a Teapot"
  | 421 => some "Misdirected Request"
  | 422 => some "Unprocessable Entity"
  | 423 => some "Locked"
  | 424 => some "Failed Dependency"
  | 426 => some "Upgrade Required"
  | 428 => some "Precondition Required"
  | 429 => some "Too Many Requests"
  | 431 => some "Request Header Fields Too Large"
  | 451 => some "Unavailable For Legal Reasons"
  | 500 => some "Internal Server Error"
  | 501 => some "Not Implemented"
  | 502 => some "Bad Gateway"
  | 503 => some "Service Unavailable"
  | 504 => some "Gateway Timeout"
  | 505 => some "HTTP Version Not Supported"
  | 506 => some "Variant Also Negotiates"
  | 507 => some "Insufficient Storage"
  | 508 => some "Loop Detected"
  | 510 => some "Not Extended"
  | 511 => some "Network Authentication Required"
  | _ => none

/-- The incoming request, restricted to the fields the module reads.
`nego` is the answer of the external content negotiator
`accepts(req).types('html', 'text')`: `some "html"`, `some "text"`, or
`none` for no acceptable type. -/
structure Req where
  method : String
  url : String
  originalUrl : Option String
  readable : Bool
  nego : Option String

/-- The outgoing response sink: mutable status code, the headers-sent
commitment marker `_header`, the header map, and the end state. -/
structure Res where
  statusCode : Nat
  headerSent : Bool
  headers : List (String × String)
  ended : Bool
  sentBody : Option String

/-- A constructed response body: the Buffer content (as its utf8 string)
together with the `.type` field set by the builders. -/
structure Body where
  content : String
  type : String

/-- One escaped character of the escape-html collaborator: `&\x22\x27<>`
become entities, all else passes through. -/
def escChar (c : Char) : List Char :=
  if c = '"' then ['&', 'q', 'u', 'o', 't', ';']
  else if c = '&' then ['&', 'a', 'm', 'p', ';']
  else if c = '\x27' then ['&', '#', '3', '9', ';']
  else if c = '<' then ['&', 'l', 't', ';']
  else if c = '>' then ['&', 'g', 't', ';']
  else [c]

/-- escape-html over a character list. -/
def escList : List Char → List Char
  | [] => []
  | c :: r => escChar c ++ escList r

/-- The escape-html collaborator on strings. -/
def escapeHtml (s : String) : String := ⟨escList s.data⟩

/-- `.replace(/\n/g, '<br>')`: left-to-right global replacement. -/
def replaceNl : List Char → List Char
  | [] => []
  | c :: r => if c = '\n' then '<' :: 'b' :: 'r' :: '>' :: replaceNl r else c :: replaceNl r

/-- `.replace(/  /g, ' &nbsp;')`: left-to-right non-overlapping global
replacement of two spaces. -/
def replaceSp : List Char → List Char
  | [] => []
  | [c] => [c]
  | c :: d :: r =>
    if c = ' ' ∧ d = ' ' then
      ' ' :: '&' :: 'n' :: 'b' :: 's' :: 'p' :: ';' :: replaceSp r
    else c :: replaceSp (d :: r)

/-- `constructHtmlBody(status, message)`: escape the message, render
newlines and double spaces, and wrap in the fixed document shell whose
title is the escaped `http.STATUS_CODES[status]`. -/
def constructHtmlBody (status : Nat) (message : String) : Body :=
  let msg : String := ⟨replaceSp (replaceNl (escList message.data))⟩
  let html := "<!doctype html>\n" ++ "<html lang=en>\n" ++ "<head>\n"
    ++ "<meta charset=utf-8>\n"
    ++ "<title>" ++ escapeHtml (jsStr (STATUS_CODES status)) ++ "</title>\n"
    ++ "</head>\n" ++ "<body>\n" ++ msg ++ "\n" ++ "</body>\n"
  { content := html, type := "text/html; charset=utf-8" }

/-- `constructTextBody(status, message)`: the message plus one newline. -/
def constructTextBody (_status : Nat) (message : String) : Body :=
  { content := message ++ "\n", type := "text/plain; charset=utf-8" }

/-- `getDefaultErrorMessage(err)`: `err.message` only when `err.status` is
in [400, 600). -/
def getDefaultErrorMessage : MsgFn := fun err _ =>
  match err.status with
  | some s => if 400 ≤ s ∧ s < 600 then err.message else none
  | none => none

/-- `getErrorMessage(err, status, message)`: the derivation function's
result, falling back to the standard status text. -/
def getErrorMessage (err : Err) (status : Nat) (message : Option MsgFn) :
    Option String :=
  let msg : Option String :=
    match message with
    | some f => f err status
    | none => none
  if jsTruthy msg then msg else STATUS_CODES status

/-- The suffix of a character list starting at the first newline, `none`
when there is no newline (`stack.indexOf('\n')` plus `substr`). -/
def fromFirstNl : List Char → Option (List Char)
  | [] => none
  | c :: r => if c = '\n' then some (c :: r) else fromFirstNl r

/-- `getErrorStack(err, status, message)`: stack-style message string. -/
def getErrorStack (err : Err) (status : Nat) (message : Option MsgFn) :
    String :=
  let stack0 : String := err.stack.getD ""
  match message with
  | some f =>
    let m1 := f err status
    let msg : String :=
      if jsTruthy m1 then m1.getD ""
      else if jsTruthy err.message then err.message.getD ""
      else err.str
    let stack1 : String :=
      match fromFirstNl stack0.data with
      | some t => ⟨t⟩
      | none => stack0
    if jsTruthy err.name then err.name.getD "" ++ ": " ++ msg ++ stack1
    else msg ++ stack1
  | none => if stack0 = "" then err.str else stack0

/-- Normalized configuration closed over by the responder. -/
structure Config where
  message : Option MsgFn
  onerror : Bool
  stacktrace : Bool

/-- The shape of the raw `options.message` value before validation: absent,
a boolean, a function, or a value of another JS type (split by its
truthiness, since `options.message || false` collapses falsy values). -/
inductive RawMsg where
  | absent
  | bTrue
  | bFalse
  | fn (f : MsgFn)
  | otherTruthy
  | otherFalsy

/-- Whether the raw message option is rejected by the typeof check. -/
def RawMsg.isBad : RawMsg → Bool
  | .otherTruthy => true
  | _ => false

/-- The raw options bag passed to `finalhandler`. -/
structure RawOptions where
  message : RawMsg
  onerror : Bool
  stacktrace : Bool

/-- The configurator `finalhandler(req, res, options)`: maps `true` to
`getDefaultErrorMessage`, collapses falsy values to `false`, and throws a
TypeError when the normalized message is neither boolean nor function. -/
def finalhandler (o : RawOptions) : Except String Config :=
  match o.message with
  | .bTrue =>
    .ok { message := some getDefaultErrorMessage, onerror := o.onerror,
          stacktrace := o.stacktrace }
  | .fn f =>
    .ok { message := some f, onerror := o.onerror, stacktrace := o.stacktrace }
  | .otherTruthy => .error "option message must be boolean or function"
  | _ => .ok { message := none, onerror := o.onerror, stacktrace := o.stacktrace }

/-- Whether construction failed. -/
def isErr : Except String Config → Bool
  | .error _ => true
  | .ok _ => false

/-- `res.setHeader(k, v)`: replace any previous value of the header. -/
def setHeader (res : Res) (k v : String) : Res :=
  { res with headers := res.headers.filter (fun p => p.1 != k) ++ [(k, v)] }

/-- Header lookup on the response. -/
def getHeader (res : Res) (k : String) : Option String :=
  (res.headers.find? (fun p => p.1 == k)).map (fun p => p.2)

/-- A write queued by the transmitter: the resolved status and body. -/
structure WriteAction where
  status : Nat
  body : Body

/-- The inner `write()` of `send`: set the status code, the nosniff,
Content-Type and Content-Length headers, then end with the body bytes, or
with no payload for a HEAD request. -/
def writeRes (req : Req) (w : WriteAction) (res : Res) : Res :=
  let r1 := { res with statusCode := w.status }
  let r2 := setHeader r1 "X-Content-Type-Options" "nosniff"
  let r3 := setHeader r2 "Content-Type" w.body.type
  let r4 := setHeader r3 "Content-Length" (toString w.body.content.utf8ByteSize)
  if req.method = "HEAD" then { r4 with ended := true, headerSent := true, sentBody := none }
  else { r4 with ended := true, headerSent := true, sentBody := some w.body.content }

/-- The observable outcome of invoking the responder once: the final
response state, whether the socket was destroyed, whether the onerror
callback was scheduled, any write still pending on the request's end
event, and the unpipe/resume effects on the request. -/
structure Invocation where
  req : Req
  res : Res
  socketDestroyed : Bool
  onerrorScheduled : Bool
  pending : Option WriteAction
  unpiped : Bool
  resumed : Bool

/-- `send(req, res, status, body)`: write immediately when the request is
not readable; otherwise unpipe, register the write on the `end` event
once, and resume the request. -/
def send (req : Req) (res : Res) (status : Nat) (body : Body)
    (onerrSched : Bool) : Invocation :=
  if req.readable then
    { req := req, res := res, socketDestroyed := false,
      onerrorScheduled := onerrSched, pending := some ⟨status, body⟩,
      unpiped := true, resumed := true }
  else
    { req := req, res := writeRes req ⟨status, body⟩ res,
      socketDestroyed := false, onerrorScheduled := onerrSched,
      pending := none, unpiped := false, resumed := false }

/-- Error-branch status resolution of the responder: default the local
status to 500 when unset or below 400, then let `err.status` override when
it lies in [400, 600). -/
def resolveStatus (err : Err) (s0 : Nat) : Nat :=
  let s1 := if s0 = 0 ∨ s0 < 400 then 500 else s0
  match err.status with
  | some es => if 400 ≤ es ∧ es < 600 then es else s1
  | none => s1

/-- Error-branch message resolution: stack-style or single-line, per the
stacktrace option.  The JS value may be `undefined`; it is coerced the way
both body builders coerce it. -/
def resolveMsg (cfg : Config) (err : Err) (status : Nat) : String :=
  if cfg.stacktrace then getErrorStack err status cfg.message
  else jsStr (getErrorMessage err status cfg.message)

/-- The `switch (type)` body dispatch: html builder on `"html"`, plain
text builder on every other negotiation result. -/
def negotiatedBody (req : Req) (status : Nat) (msg : String) : Body :=
  if req.nego = some "html" then constructHtmlBody status msg
  else constructTextBody status msg

/-- The status and message the responder resolves before the commitment
check: the error branch, or the canonical 404 branch when `err` is falsy. -/
def resolvedPair (cfg : Config) (req : Req) (res : Res) (err : Option Err) :
    Nat × String :=
  match err with
  | some e =>
    let st := resolveStatus e res.statusCode
    (st, resolveMsg cfg e st)
  | none => (404, "Cannot " ++ req.method ++ " " ++ (req.originalUrl.getD req.url))

/-- One invocation of the responder returned by the configurator: resolve
status and message, schedule onerror, destroy the socket when headers were
already sent, otherwise negotiate, build the body and hand to `send`. -/
def invoke (cfg : Config) (req : Req) (res : Res) (err : Option Err) :
    Invocation :=
  let sm : Nat × String := resolvedPair cfg req res err
  let onerrSched := err.isSome && cfg.onerror
  if res.headerSent then
    { req := req, res := res, socketDestroyed := true,
      onerrorScheduled := onerrSched, pending := none,
      unpiped := false, resumed := false }
  else
    send req res sm.1 (negotiatedBody req sm.1 sm.2) onerrSched

/-- Delivery of the request's `end` event: run the once-registered pending
write, if any, and deregister it. -/
def fireEnd (i : Invocation) : Invocation :=
  match i.pending with
  | some w => { i with res := writeRes i.req w i.res, pending := none }
  | none => i

/-- Specification-side predicate for the script-injection property: no
occurrence of the character pair lt-s anywhere in the list, so no
`<script` tag can occur. -/
def noLtS : List Char → Bool
  | [] => true
  | [_] => true
  | a :: b :: r => !(a == '<' && b == 's') && noLtS (b :: r)

/-! Helper lemmas about the transmitter's write. -/

theorem writeRes_statusCode (req : Req) (w : WriteAction) (res : Res) :
    (writeRes req w res).statusCode = w.status := by
  simp only [writeRes, setHeader]
  split <;> rfl

theorem writeRes_ended (req : Req) (w : WriteAction) (res : Res) :
    (writeRes req w res).ended = true := by
  simp only [writeRes, setHeader]
  split <;> rfl

theorem find?_filter_ne (l : List (String × String)) (k k' : String)
    (h : k ≠ k') :
    (l.filter (fun p => p.1 != k')).find? (fun p => p.1 == k) =
      l.find? (fun p => p.1 == k) := by
  induction l with
  | nil => rfl
  | cons a t ih =>
    by_cases hb : a.1 = k'
    · have h2 : (a.1 == k) = false := by simp [hb, Ne.symm h]
      have h3 : (a.1 != k') = false := by simp [hb]
      simp [List.filter_cons, List.find?_cons, h3, h2, ih]
    · have h1 : (a.1 != k') = true := by simp [hb]
      cases hak : (a.1 == k) with
      | true => simp [List.filter_cons, List.find?_cons, h1, hak]
      | false => simp [List.filter_cons, List.find?_cons, h1, hak, ih]

theorem getHeader_setHeader_self (res : Res) (k v : String) :
    getHeader (setHeader res k v) k = some v := by
  have hnone : (res.headers.filter (fun p => p.1 != k)).find?
      (fun p => p.1 == k) = none := by
    rw [List.find?_eq_none]
    intro p hp
    have := List.of_mem_filter hp
    simpa using this
  simp [getHeader, setHeader, List.find?_append, hnone]

theorem getHeader_setHeader_ne (res : Res) (k k' v : String) (h : k ≠ k') :
    getHeader (setHeader res k' v) k = getHeader res k := by
  have hne : (k' == k) = false := by simp [Ne.symm h]
  simp only [getHeader, setHeader, List.find?_append,
    find?_filter_ne _ _ _ h, List.find?_cons, hne, List.find?_nil]
  cases res.headers.find? (fun p => p.1 == k) <;> rfl

theorem getHeader_congr (r1 r2 : Res) (k : String)
    (h : r1.headers = r2.headers) : getHeader r1 k = getHeader r2 k := by
  simp only [getHeader, h]

theorem writeRes_headers (req : Req) (w : WriteAction) (res : Res) :
    (writeRes req w res).headers =
      (setHeader (setHeader (setHeader { res with statusCode := w.status }
        "X-Content-Type-Options" "nosniff") "Content-Type" w.body.type)
        "Content-Length" (toString w.body.content.utf8ByteSize)).headers := by
  simp only [writeRes]
  split <;> rfl

theorem writeRes_contentLength (req : Req) (w : WriteAction) (res : Res) :
    getHeader (writeRes req w res) "Content-Length" =
      some (toString w.body.content.utf8ByteSize) := by
  rw [getHeader_congr _ _ _ (writeRes_headers req w res)]
  exact getHeader_setHeader_self _ _ _

theorem writeRes_contentType (req : Req) (w : WriteAction) (res : Res) :
    getHeader (writeRes req w res) "Content-Type" = some w.body.type := by
  rw [getHeader_congr _ _ _ (writeRes_headers req w res),
    getHeader_setHeader_ne _ _ _ _ (by decide)]
  exact getHeader_setHeader_self _ _ _

theorem writeRes_nosniff (req : Req) (w : WriteAction) (res : Res) :
    getHeader (writeRes req w res) "X-Content-Type-Options" = some "nosniff" := by
  rw [getHeader_congr _ _ _ (writeRes_headers req w res),
    getHeader_setHeader_ne _ _ _ _ (by decide),
    getHeader_setHeader_ne _ _ _ _ (by decide)]
  exact getHeader_setHeader_self _ _ _

/-! Reduction lemmas for the three control paths of an invocation. -/

theorem invoke_destroy (cfg : Config) (req : Req) (res : Res)
    (err : Option Err) (hh : res.headerSent = true) :
    invoke cfg req res err =
      { req := req, res := res, socketDestroyed := true,
        onerrorScheduled := err.isSome && cfg.onerror, pending := none,
        unpiped := false, resumed := false } := by
  simp [invoke, hh]

theorem invoke_write (cfg : Config) (req : Req) (res : Res)
    (err : Option Err) (hh : res.headerSent = false)
    (hr : req.readable = false) :
    invoke cfg req res err =
      { req := req,
        res := writeRes req
          ⟨(resolvedPair cfg req res err).1,
            negotiatedBody req (resolvedPair cfg req res err).1
              (resolvedPair cfg req res err).2⟩ res,
        socketDestroyed := false,
        onerrorScheduled := err.isSome && cfg.onerror, pending := none,
        unpiped := false, resumed := false } := by
  simp [invoke, hh, hr, send]

theorem invoke_pending (cfg : Config) (req : Req) (res : Res)
    (err : Option Err) (hh : res.headerSent = false)
    (hr : req.readable = true) :
    invoke cfg req res err =
      { req := req, res := res, socketDestroyed := false,
        onerrorScheduled := err.isSome && cfg.onerror,
        pending := some ⟨(resolvedPair cfg req res err).1,
          negotiatedBody req (resolvedPair cfg req res err).1
            (resolvedPair cfg req res err).2⟩,
        unpiped := true, resumed := true } := by
  simp [invoke, hh, hr, send]

theorem resolveStatus_of_valid (e : Err) (s s0 : Nat) (hs : e.status = some s)
    (h4 : 400 ≤ s) (h5 : s ≤ 599) : resolveStatus e s0 = s := by
  simp only [resolveStatus, hs]
  rw [if_pos ⟨h4, by omega⟩]

theorem resolveStatus_of_invalid (e : Err) (s0 : Nat)
    (hs : e.status = none ∨ ∃ s, e.status = some s ∧ (s < 400 ∨ 600 ≤ s)) :
    resolveStatus e s0 = if s0 = 0 ∨ s0 < 400 then 500 else s0 := by
  rcases hs with h | ⟨s, hs, hout⟩
  · simp [resolveStatus, h]
  · simp only [resolveStatus, hs]
    rw [if_neg (by omega)]

theorem writeRes_sentBody_not_head (req : Req) (w : WriteAction) (res : Res)
    (hm : req.method ≠ "HEAD") :
    (writeRes req w res).sentBody = some w.body.content := by
  simp only [writeRes]
  rw [if_neg hm]

theorem writeRes_sentBody_head (req : Req) (w : WriteAction) (res : Res)
    (hm : req.method = "HEAD") : (writeRes req w res).sentBody = none := by
  simp only [writeRes]
  rw [if_pos hm]

/-! Lemmas for the HTML-escaping claim. -/

theorem data_mk (l : List Char) : (String.mk l).data = l := rfl

theorem noLtS_tail {a : Char} {l : List Char} (h : noLtS (a :: l) = true) :
    noLtS l = true := by
  cases l with
  | nil => rfl
  | cons b r =>
    simp only [noLtS, Bool.and_eq_true] at h
    exact h.2

theorem noLtS_cons_of_ne {a : Char} {l : List Char} (ha : a ≠ '<')
    (h : noLtS l = true) : noLtS (a :: l) = true := by
  cases l with
  | nil => rfl
  | cons b r =>
    simp only [noLtS, Bool.and_eq_true]
    refine ⟨?_, h⟩
    have : (a == '<') = false := by simp [ha]
    simp [this]

theorem noLtS_lt_cons {b : Char} {r : List Char} (hb : b ≠ 's')
    (h : noLtS (b :: r) = true) : noLtS ('<' :: b :: r) = true := by
  simp only [noLtS, Bool.and_eq_true]
  refine ⟨?_, h⟩
  have : (b == 's') = false := by simp [hb]
  simp [this]

theorem noLtS_lt_head {b : Char} {r : List Char}
    (h : noLtS ('<' :: b :: r) = true) : b ≠ 's' := by
  simp only [noLtS, Bool.and_eq_true] at h
  intro hb
  rw [hb] at h
  simp at h

theorem noLtS_append : ∀ (x y : List Char), noLtS x = true → noLtS y = true →
    (x.getLast? ≠ some '<' ∨ y.head? ≠ some 's') → noLtS (x ++ y) = true
  | [], y, _, hy, _ => by simpa using hy
  | [a], y, _, hy, hb => by
    cases y with
    | nil => rfl
    | cons b r =>
      have hcond : ¬(a = '<' ∧ b = 's') := by
        rcases hb with h1 | h2
        · intro hab
          exact h1 (by simp [hab.1])
        · intro hab
          exact h2 (by simp [hab.2])
      show noLtS (a :: b :: r) = true
      by_cases ha : a = '<'
      · exact ha ▸ noLtS_lt_cons (fun hbs => hcond ⟨ha, hbs⟩) hy
      · exact noLtS_cons_of_ne ha hy
  | a :: c :: x'', y, hx, hy, hb => by
    have hx' : noLtS (c :: x'') = true := noLtS_tail hx
    have hb' : (c :: x'').getLast? ≠ some '<' ∨ y.head? ≠ some 's' := by
      rcases hb with h1 | h2
      · exact Or.inl (by simpa [List.getLast?_cons_cons] using h1)
      · exact Or.inr h2
    have ih := noLtS_append (c :: x'') y hx' hy hb'
    show noLtS (a :: c :: (x'' ++ y)) = true
    simp only [noLtS, Bool.and_eq_true] at hx ⊢
    exact ⟨hx.1, ih⟩

theorem noLtS_append_right : ∀ (x : List Char) {y : List Char},
    noLtS (x ++ y) = true → noLtS y = true
  | [], _, h => h
  | _ :: x', _, h => noLtS_append_right x' (noLtS_tail h)

theorem not_infix_ls {l : List Char} (h : noLtS l = true) :
    ¬ (['<', 's'] <:+: l) := by
  rintro ⟨u, v, huv⟩
  rw [← huv, List.append_assoc] at h
  have h2 := noLtS_append_right u h
  simp [noLtS] at h2

theorem mem_escChar_ne_lt {c x : Char} (hx : x ∈ escChar c) : x ≠ '<' := by
  unfold escChar at hx
  split_ifs at hx with h1 h2 h3 h4 h5
  · intro heq; subst heq; revert hx; decide
  · intro heq; subst heq; revert hx; decide
  · intro heq; subst heq; revert hx; decide
  · intro heq; subst heq; revert hx; decide
  · intro heq; subst heq; revert hx; decide
  · rw [List.mem_singleton] at hx
    subst hx
    exact h4

theorem escList_no_lt : ∀ (l : List Char), '<' ∉ escList l
  | [] => by simp [escList]
  | c :: r => by
    simp only [escList, List.mem_append]
    rintro (h | h)
    · exact mem_escChar_ne_lt h rfl
    · exact escList_no_lt r h

theorem noLtS_of_no_lt : ∀ (l : List Char), '<' ∉ l → noLtS l = true
  | [], _ => rfl
  | a :: r, h =>
    noLtS_cons_of_ne (fun ha => h (ha ▸ List.mem_cons_self a r))
      (noLtS_of_no_lt r (fun hr => h (List.mem_cons_of_mem a hr)))

theorem getLast?_ne_of_no_lt {l : List Char} (h : '<' ∉ l) :
    l.getLast? ≠ some '<' := by
  intro hl
  rcases List.getLast?_eq_some_iff.1 hl with ⟨ys, rfl⟩
  exact h (by simp)

theorem replaceNl_noLtS : ∀ (l : List Char), '<' ∉ l →
    noLtS (replaceNl l) = true
  | [], _ => rfl
  | c :: r, h => by
    have hr : '<' ∉ r := fun hm => h (List.mem_cons_of_mem c hm)
    have hc : c ≠ '<' := fun hc => h (hc ▸ List.mem_cons_self c r)
    have ih := replaceNl_noLtS r hr
    simp only [replaceNl]
    by_cases hnl : c = '\n'
    · rw [if_pos hnl]
      exact noLtS_lt_cons (by decide)
        (noLtS_cons_of_ne (by decide)
          (noLtS_cons_of_ne (by decide)
            (noLtS_cons_of_ne (by decide) ih)))
    · rw [if_neg hnl]
      exact noLtS_cons_of_ne hc ih

theorem replaceSp_head? : ∀ (l : List Char), (replaceSp l).head? = l.head?
  | [] => rfl
  | [_] => rfl
  | c :: d :: r => by
    simp only [replaceSp]
    by_cases h : c = ' ' ∧ d = ' '
    · rw [if_pos h]
      simp [h.1]
    · rw [if_neg h]
      rfl

theorem replaceSp_noLtS : ∀ (l : List Char), noLtS l = true →
    noLtS (replaceSp l) = true
  | [], _ => rfl
  | [_], _ => rfl
  | c :: d :: r, h => by
    have hdr : noLtS (d :: r) = true := noLtS_tail h
    have hr : noLtS r = true := noLtS_tail hdr
    simp only [replaceSp]
    by_cases hsp : c = ' ' ∧ d = ' '
    · rw [if_pos hsp]
      have ih := replaceSp_noLtS r hr
      exact noLtS_cons_of_ne (by decide) (noLtS_cons_of_ne (by decide)
        (noLtS_cons_of_ne (by decide) (noLtS_cons_of_ne (by decide)
          (noLtS_cons_of_ne (by decide) (noLtS_cons_of_ne (by decide)
            (noLtS_cons_of_ne (by decide) ih))))))
    · rw [if_neg hsp]
      have ih := replaceSp_noLtS (d :: r) hdr
      by_cases hc : c = '<'
      · subst hc
        have hd : d ≠ 's' := noLtS_lt_head h
        cases hrs : replaceSp (d :: r) with
        | nil => rfl
        | cons b t =>
          have hb : b = d := by
            have hh := replaceSp_head? (d :: r)
            rw [hrs] at hh
            simpa using hh
          rw [hrs] at ih
          exact noLtS_lt_cons (by rw [hb]; exact hd) ih
      · exact noLtS_cons_of_ne hc ih

theorem escChar_id {c : Char}
    (h : c ≠ '&' ∧ c ≠ '<' ∧ c ≠ '>' ∧ c ≠ '"' ∧ c ≠ '\x27') :
    escChar c = [c] := by
  obtain ⟨h1, h2, h3, h4, h5⟩ := h
  simp [escChar, h1, h2, h3, h4, h5]

theorem escList_id : ∀ (l : List Char),
    (∀ c ∈ l, c ≠ '&' ∧ c ≠ '<' ∧ c ≠ '>' ∧ c ≠ '"' ∧ c ≠ '\x27') →
    escList l = l
  | [], _ => rfl
  | c :: r, h => by
    rw [escList, escChar_id (h c (List.mem_cons_self c r)),
      escList_id r (fun d hd => h d (List.mem_cons_of_mem c hd))]
    rfl

theorem constructHtmlBody_noLtS (status : Nat) (m : String) :
    noLtS (constructHtmlBody status m).content.data = true := by
  have hc : (constructHtmlBody status m).content =
      "<!doctype html>\n<html lang=en>\n<head>\n<meta charset=utf-8>\n<title>"
      ++ escapeHtml (jsStr (STATUS_CODES status))
      ++ "</title>\n</head>\n<body>\n"
      ++ String.mk (replaceSp (replaceNl (escList m.data)))
      ++ "\n</body>\n" := by
    have hA : ("<!doctype html>\n<html lang=en>\n<head>\n<meta charset=utf-8>\n<title>" : String)
        = "<!doctype html>\n" ++ "<html lang=en>\n" ++ "<head>\n"
          ++ "<meta charset=utf-8>\n" ++ "<title>" := rfl
    have hB : ("</title>\n</head>\n<body>\n" : String)
        = "</title>\n" ++ "</head>\n" ++ "<body>\n" := rfl
    have hC : ("\n</body>\n" : String) = "\n" ++ "</body>\n" := rfl
    simp only [constructHtmlBody]
    rw [hA, hB, hC]
    simp [String.append_assoc]
  rw [hc]
  simp only [String.data_append, escapeHtml, data_mk, List.append_assoc]
  have hT := escList_no_lt (jsStr (STATUS_CODES status)).data
  have hM : noLtS (replaceSp (replaceNl (escList m.data))) = true :=
    replaceSp_noLtS _ (replaceNl_noLtS _ (escList_no_lt m.data))
  apply noLtS_append _ _ (by decide) _ (Or.inl (by decide))
  apply noLtS_append _ _ (noLtS_of_no_lt _ hT) _ (Or.inl (getLast?_ne_of_no_lt hT))
  apply noLtS_append _ _ (by decide) _ (Or.inl (by decide))
  exact noLtS_append _ _ hM (by decide) (Or.inr (by decide))

/-- C1: invoking the responder with an error whose `status` attribute is an
integer in [400, 599] writes exactly that status to the response,
overriding any status previously set on the response object. -/
theorem claim1_error_status_in_range_overrides (cfg : Config) (req : Req)
    (res : Res) (e : Err) (s : Nat) (hs : e.status = some s) (h4 : 400 ≤ s)
    (h5 : s ≤ 599) (hh : res.headerSent = false) (hr : req.readable = false) :
    (invoke cfg req res (some e)).res.statusCode = s := by
  rw [invoke_write cfg req res (some e) hh hr]
  show (writeRes req _ res).statusCode = s
  rw [writeRes_statusCode]
  show (resolvedPair cfg req res (some e)).1 = s
  simp only [resolvedPair]
  exact resolveStatus_of_valid e s res.statusCode hs h4 h5

theorem claim1_witness :
    (invoke ⟨none, false, false⟩ ⟨"GET", "/x", none, false, some "text"⟩
      ⟨200, false, [], false, none⟩
      (some ⟨some 404, none, none, none, "E"⟩)).res.statusCode = 404 :=
  claim1_error_status_in_range_overrides _ _ _ _ 404 rfl (by decide)
    (by decide) rfl rfl

/-- C2: invoking the responder with an error whose `status` attribute is
absent or out of [400, 600) resolves the status to 500, unless the
response's preexisting status code was already at least 400, in which case
that preexisting status is kept. -/
theorem claim2_status_defaults_to_500 (cfg : Config) (req : Req) (res : Res)
    (e : Err)
    (hs : e.status = none ∨ ∃ s, e.status = some s ∧ (s < 400 ∨ 600 ≤ s))
    (hh : res.headerSent = false) (hr : req.readable = false) :
    (res.statusCode < 400 →
      (invoke cfg req res (some e)).res.statusCode = 500) ∧
    (400 ≤ res.statusCode →
      (invoke cfg req res (some e)).res.statusCode = res.statusCode) := by
  have hst : (invoke cfg req res (some e)).res.statusCode =
      if res.statusCode = 0 ∨ res.statusCode < 400 then 500
      else res.statusCode := by
    rw [invoke_write cfg req res (some e) hh hr]
    show (writeRes req _ res).statusCode = _
    rw [writeRes_statusCode]
    show (resolvedPair cfg req res (some e)).1 = _
    simp only [resolvedPair]
    exact resolveStatus_of_invalid e res.statusCode hs
  constructor
  · intro hlt
    rw [hst, if_pos (Or.inr hlt)]
  · intro hge
    rw [hst, if_neg (by omega)]

theorem claim2_witness :
    (invoke ⟨none, false, false⟩ ⟨"GET", "/x", none, false, some "text"⟩
      ⟨200, false, [], false, none⟩
      (some ⟨some 200, none, none, none, "E"⟩)).res.statusCode = 500 ∧
    (invoke ⟨none, false, false⟩ ⟨"GET", "/x", none, false, some "text"⟩
      ⟨503, false, [], false, none⟩
      (some ⟨some 700, none, none, none, "E"⟩)).res.statusCode = 503 :=
  ⟨(claim2_status_defaults_to_500 _ _ _ _
      (Or.inr ⟨200, rfl, by decide⟩) rfl rfl).1 (by decide),
   (claim2_status_defaults_to_500 _ _ _ _
      (Or.inr ⟨700, rfl, by decide⟩) rfl rfl).2 (by decide)⟩

/-- C3: when the response's headers-sent marker is already set, the
responder leaves the response untouched (no header or body writes, nothing
pending) and destroys the underlying socket. -/
theorem claim3_committed_response_destroys_socket (cfg : Config) (req : Req)
    (res : Res) (err : Option Err) (hh : res.headerSent = true) :
    (invoke cfg req res err).res = res ∧
    (invoke cfg req res err).socketDestroyed = true ∧
    (invoke cfg req res err).pending = none := by
  rw [invoke_destroy cfg req res err hh]
  exact ⟨rfl, rfl, rfl⟩

theorem claim3_witness :
    (invoke ⟨none, false, false⟩ ⟨"GET", "/x", none, false, some "text"⟩
      ⟨200, true, [], false, none⟩ none).res = ⟨200, true, [], false, none⟩ ∧
    (invoke ⟨none, false, false⟩ ⟨"GET", "/x", none, false, some "text"⟩
      ⟨200, true, [], false, none⟩ none).socketDestroyed = true ∧
    (invoke ⟨none, false, false⟩ ⟨"GET", "/x", none, false, some "text"⟩
      ⟨200, true, [], false, none⟩ none).pending = none :=
  claim3_committed_response_destroys_socket _ _ _ _ rfl

/-- C4: invoking the responder with no error resolves status 404 and the
message `"Cannot " + method + " " + (originalUrl or url)`; on the plain
text path the body is exactly that message plus a newline, so it contains
the request method and path verbatim. -/
theorem claim4_no_error_is_404_cannot (cfg : Config) (req : Req) (res : Res)
    (hh : res.headerSent = false) (hr : req.readable = false) :
    (invoke cfg req res none).res.statusCode = 404 ∧
    (req.nego ≠ some "html" → req.method ≠ "HEAD" →
      (invoke cfg req res none).res.sentBody =
        some ("Cannot " ++ req.method ++ " " ++ (req.originalUrl.getD req.url)
          ++ "\n")) := by
  rw [invoke_write cfg req res none hh hr]
  constructor
  · show (writeRes req _ res).statusCode = 404
    rw [writeRes_statusCode]
    rfl
  · intro hn hm
    show (writeRes req _ res).sentBody = _
    rw [writeRes_sentBody_not_head req _ res hm]
    simp [negotiatedBody, hn, constructTextBody, resolvedPair]

theorem claim4_witness :
    (invoke ⟨none, false, false⟩ ⟨"GET", "/missing", none, false, some "text"⟩
      ⟨200, false, [], false, none⟩ none).res.statusCode = 404 ∧
    (invoke ⟨none, false, false⟩ ⟨"GET", "/missing", none, false, some "text"⟩
      ⟨200, false, [], false, none⟩ none).res.sentBody =
      some "Cannot GET /missing\n" :=
  ⟨(claim4_no_error_is_404_cannot _ _ _ rfl rfl).1,
   (claim4_no_error_is_404_cannot _ _ _ rfl rfl).2 (by decide) (by decide)⟩

/-- C6: for a HEAD request the write ends the response with no body
payload, while still setting Content-Length to the byte length of the
unsent constructed body, the body's Content-Type, and the
X-Content-Type-Options nosniff header. -/
theorem claim6_head_gets_no_body (req : Req) (w : WriteAction) (res : Res)
    (hm : req.method = "HEAD") :
    (writeRes req w res).sentBody = none ∧
    (writeRes req w res).ended = true ∧
    getHeader (writeRes req w res) "Content-Length" =
      some (toString w.body.content.utf8ByteSize) ∧
    getHeader (writeRes req w res) "Content-Type" = some w.body.type ∧
    getHeader (writeRes req w res) "X-Content-Type-Options" = some "nosniff" :=
  ⟨writeRes_sentBody_head req w res hm, writeRes_ended req w res,
   writeRes_contentLength req w res, writeRes_contentType req w res,
   writeRes_nosniff req w res⟩

theorem claim6_witness :
    (writeRes ⟨"HEAD", "/x", none, false, some "text"⟩
      ⟨404, ⟨"Not Found\n", "text/plain; charset=utf-8"⟩⟩
      ⟨200, false, [], false, none⟩).sentBody = none ∧
    (writeRes ⟨"HEAD", "/x", none, false, some "text"⟩
      ⟨404, ⟨"Not Found\n", "text/plain; charset=utf-8"⟩⟩
      ⟨200, false, [], false, none⟩).ended = true ∧
    getHeader (writeRes ⟨"HEAD", "/x", none, false, some "text"⟩
      ⟨404, ⟨"Not Found\n", "text/plain; charset=utf-8"⟩⟩
      ⟨200, false, [], false, none⟩) "Content-Length" = some "10" ∧
    getHeader (writeRes ⟨"HEAD", "/x", none, false, some "text"⟩
      ⟨404, ⟨"Not Found\n", "text/plain; charset=utf-8"⟩⟩
      ⟨200, false, [], false, none⟩) "Content-Type" =
      some "text/plain; charset=utf-8" ∧
    getHeader (writeRes ⟨"HEAD", "/x", none, false, some "text"⟩
      ⟨404, ⟨"Not Found\n", "text/plain; charset=utf-8"⟩⟩
      ⟨200, false, [], false, none⟩) "X-Content-Type-Options" =
      some "nosniff" :=
  claim6_head_gets_no_body _ _ _ rfl

/-- C7: while the request stream is still readable the invocation performs
no status, header or body write (the response is unchanged and the write is
only pending); delivering the end event performs the write, and a second
end event changes nothing, so the write sequence runs at most once. -/
theorem claim7_write_waits_for_drain (cfg : Config) (req : Req) (res : Res)
    (err : Option Err) (hr : req.readable = true) :
    (invoke cfg req res err).res = res ∧
    fireEnd (fireEnd (invoke cfg req res err)) = fireEnd (invoke cfg req res err) ∧
    (res.headerSent = false → (fireEnd (invoke cfg req res err)).res.ended = true) := by
  cases hh : res.headerSent with
  | false =>
    rw [invoke_pending cfg req res err hh hr]
    refine ⟨rfl, ?_, ?_⟩
    · simp [fireEnd]
    · intro
      simp [fireEnd, writeRes_ended]
  | true =>
    rw [invoke_destroy cfg req res err hh]
    refine ⟨rfl, rfl, ?_⟩
    intro hc
    exact absurd hc (by decide)

theorem claim7_witness :
    (invoke ⟨none, false, false⟩ ⟨"POST", "/x", none, true, some "text"⟩
      ⟨200, false, [], false, none⟩ none).res = ⟨200, false, [], false, none⟩ ∧
    fireEnd (fireEnd (invoke ⟨none, false, false⟩
      ⟨"POST", "/x", none, true, some "text"⟩
      ⟨200, false, [], false, none⟩ none)) =
    fireEnd (invoke ⟨none, false, false⟩
      ⟨"POST", "/x", none, true, some "text"⟩
      ⟨200, false, [], false, none⟩ none) ∧
    (fireEnd (invoke ⟨none, false, false⟩
      ⟨"POST", "/x", none, true, some "text"⟩
      ⟨200, false, [], false, none⟩ none)).res.ended = true :=
  have h := claim7_write_waits_for_drain ⟨none, false, false⟩
    ⟨"POST", "/x", none, true, some "text"⟩ ⟨200, false, [], false, none⟩
    none rfl
  ⟨h.1, h.2.1, h.2.2 rfl⟩

/-- C9: construction fails with the TypeError exactly when the normalized
message option (after mapping `true` to the built-in default derivation and
collapsing falsy values to `false`) is neither boolean nor function-shaped;
no other option is validated eagerly at construction time. -/
theorem claim9_only_message_validated_eagerly (o : RawOptions) :
    (o.message.isBad = true →
      finalhandler o = .error "option message must be boolean or function") ∧
    (o.message.isBad = false → isErr (finalhandler o) = false) := by
  cases hm : o.message <;> simp [RawMsg.isBad, finalhandler, isErr, hm]

theorem claim9_witness :
    finalhandler ⟨.otherTruthy, false, false⟩ =
      .error "option message must be boolean or function" ∧
    isErr (finalhandler ⟨.absent, true, true⟩) = false :=
  ⟨(claim9_only_message_validated_eagerly _).1 rfl,
   (claim9_only_message_validated_eagerly _).2 rfl⟩

/-- C8: the HTML escaping used by the HTML body builder is idempotent on
already-safe text (text containing none of the characters it escapes), and
for any error message containing the substring `<script>` the builder's
output never contains an unescaped `<script>`. -/
theorem claim8_escaping_round_trip (s : String)
    (hs : ∀ c ∈ s.data, c ≠ '&' ∧ c ≠ '<' ∧ c ≠ '>' ∧ c ≠ '"' ∧ c ≠ '\x27')
    (status : Nat) (m : String) (hm : "<script>".data <:+: m.data) :
    escapeHtml (escapeHtml s) = escapeHtml s ∧
    ¬ ("<script>".data <:+: (constructHtmlBody status m).content.data) := by
  constructor
  · have hid : escapeHtml s = s := by
      show String.mk (escList s.data) = s
      rw [escList_id s.data hs]
    rw [hid]
    exact hid
  · intro hinf
    have hpre : ['<', 's'] <:+: (constructHtmlBody status m).content.data := by
      rcases hinf with ⟨u, v, huv⟩
      refine ⟨u, 'c' :: 'r' :: 'i' :: 'p' :: 't' :: '>' :: v, ?_⟩
      simpa using huv
    exact not_infix_ls (constructHtmlBody_noLtS status m) hpre

theorem claim8_witness :
    escapeHtml (escapeHtml "abc") = escapeHtml "abc" ∧
    ¬ ("<script>".data <:+:
      (constructHtmlBody 500 "x<script>y").content.data) :=
  claim8_escaping_round_trip "abc" (by decide) 500 "x<script>y" (by decide)

/-- C10: on the protocol-violation path (headers already sent), the
response's statusCode field is left unchanged: the resolved status lives in
a local variable and is only assigned when a write occurs. -/
theorem claim10_statusCode_unchanged_on_violation (cfg : Config) (req : Req)
    (res : Res) (err : Option Err) (hh : res.headerSent = true) :
    (invoke cfg req res err).res.statusCode = res.statusCode := by
  rw [invoke_destroy cfg req res err hh]

/-- C5: when negotiation selects html, the produced body is typed
`text/html; charset=utf-8` and is the fixed minimal HTML document whose
title is the HTML-escaped standard reason phrase for the status; on every
other negotiation result the body is typed `text/plain; charset=utf-8` and
equals the message followed by a single newline. -/
theorem claim5_body_format_per_negotiation (req : Req) (status : Nat)
    (msg : String) :
    (req.nego = some "html" →
      (negotiatedBody req status msg).type = "text/html; charset=utf-8" ∧
      (negotiatedBody req status msg).content =
        "<!doctype html>\n<html lang=en>\n<head>\n<meta charset=utf-8>\n<title>"
        ++ escapeHtml (jsStr (STATUS_CODES status))
        ++ "</title>\n</head>\n<body>\n"
        ++ String.mk (replaceSp (replaceNl (escList msg.data)))
        ++ "\n</body>\n") ∧
    (req.nego ≠ some "html" →
      (negotiatedBody req status msg).type = "text/plain; charset=utf-8" ∧
      (negotiatedBody req status msg).content = msg ++ "\n") := by
  have hA : ("<!doctype html>\n<html lang=en>\n<head>\n<meta charset=utf-8>\n<title>" : String)
      = "<!doctype html>\n" ++ "<html lang=en>\n" ++ "<head>\n"
        ++ "<meta charset=utf-8>\n" ++ "<title>" := rfl
  have hB : ("</title>\n</head>\n<body>\n" : String)
      = "</title>\n" ++ "</head>\n" ++ "<body>\n" := rfl
  have hC : ("\n</body>\n" : String) = "\n" ++ "</body>\n" := rfl
  constructor
  · intro hn
    constructor
    · simp [negotiatedBody, hn, constructHtmlBody]
    · simp only [negotiatedBody, hn, if_pos, constructHtmlBody]
      rw [hA, hB, hC]
      simp [String.append_assoc]
  · intro hn
    constructor
    · simp [negotiatedBody, hn, constructTextBody]
    · simp [negotiatedBody, hn, constructTextBody]

theorem claim5_witness :
    (negotiatedBody ⟨"GET", "/x", none, false, some "html"⟩ 404 "boom").type
      = "text/html; charset=utf-8" ∧
    (negotiatedBody ⟨"GET", "/x", none, false, some "html"⟩ 404 "boom").content
      = "<!doctype html>\n<html lang=en>\n<head>\n<meta charset=utf-8>\n<title>Not Found</title>\n</head>\n<body>\nboom\n</body>\n" ∧
    (negotiatedBody ⟨"GET", "/x", none, false, none⟩ 404 "boom").type
      = "text/plain; charset=utf-8" ∧
    (negotiatedBody ⟨"GET", "/x", none, false, none⟩ 404 "boom").content
      = "boom\n" :=
  have h1 := (claim5_body_format_per_negotiation
    ⟨"GET", "/x", none, false, some "html"⟩ 404 "boom").1 rfl
  have h2 := (claim5_body_format_per_negotiation
    ⟨"GET", "/x", none, false, none⟩ 404 "boom").2 (by decide)
  ⟨h1.1, h1.2.trans (by decide), h2.1, h2.2.trans rfl⟩

theorem claim10_witness :
    (invoke ⟨none, false, false⟩ ⟨"GET", "/x", none, false, some "text"⟩
      ⟨200, true, [], false, none⟩
      (some ⟨some 503, none, none, none, "E"⟩)).res.statusCode = 200 :=
  claim10_statusCode_unchanged_on_violation _ _ _ _ rfl

end Finalhandler
